import Mathlib

/-!
Verification development for the press-release-tool content-generation core.

The definitions below are a shallow embedding of the TypeScript sources:

* `src/lib/error-handler.ts` (second document: the SCALE-PR model with
  `checkCompatibility` / `checkAngleCompatibility` / `extractKeywords`,
  first document: `toAppError` / `getUserFriendlyMessage`),
* `src/lib/ai-client.ts` (first document: `generateWithOpenAI`,
  `generateWithClaude`, `generateWithGemini`, `generateWithAI`),
* `src/unnamed/part_017` (first document: the proposal orchestrator route —
  `generateProposals`, `generateProposalForAngle`,
  `generateProposalFromTemplate`, `createProposalFromAIResponse`,
  `generateContentForAngle`, and the POST-level score filter),
* `src/unnamed/part_016` (the AI-assist route: `POST`, the title-proposal
  JSON pipeline with its line-based fallback, `generateTemplateBased`).

Modelling conventions:

* JavaScript strings are modelled as Lean `String`; `String.prototype.includes`
  is `jsIncludes`, `trim` is `jsTrim` (JS trims Unicode whitespace, which the
  inputs here exercise only through the characters listed in `jsWhitespace`),
  `toLowerCase` is `jsToLower` (ASCII case map; identity on the Japanese text
  used throughout, like JS on those code points).  String truthiness
  (`if (s)`) is `jsTruthy`, i.e. non-emptiness.
* Environment variables are a record of three strings; an absent variable is
  the empty string (both are falsy in the source's truthiness checks).
* Network calls are oracles passed as function arguments: each provider call
  is an `Except String String` (error message or returned text), the Gemini
  adapter's per-model HTTP interaction is a `String → GeminiModelOutcome`
  oracle keyed by model name, and `JSON.parse` is an `Option`-valued oracle
  (`none` models a parse exception).  The prompt fed to a provider is a pure
  function of data that is already an argument, so oracles are keyed by the
  structured data instead of the prompt text.
* `Date.now`-dependent pieces (`getSeasonalContext`) take the current month
  as an argument; `generateId()` (random) is dropped from the proposal record
  since no observable behaviour depends on it.
* Scores are `Int`, so the clamping claims are not vacuous.
-/

/-- JS whitespace characters (`\s`) that can occur in this code base's data:
space, tab, CR, LF, vertical tab, form feed, NBSP and ideographic space. -/
def jsWhitespace (c : Char) : Bool :=
  c == ' ' || c == '\t' || c == '\n' || c == '\r' || c == '\x0b' ||
  c == '\x0c' || c == ' ' || c == '　'

/-- Substring search on char lists, `pat` occurring inside the second list. -/
def jsIncludesL (pat : List Char) : List Char → Bool
  | [] => pat.isEmpty
  | c :: rest => pat.isPrefixOf (c :: rest) || jsIncludesL pat rest

/-- `s.includes(sub)` of JavaScript. -/
def jsIncludes (s sub : String) : Bool :=
  jsIncludesL sub.toList s.toList

/-- `s.toLowerCase()`; ASCII case map, identity on the Japanese text used here. -/
def jsToLower (s : String) : String :=
  String.mk (s.toList.map Char.toLower)

/-- `s.trim()` over the `jsWhitespace` character set. -/
def jsTrim (s : String) : String :=
  String.mk (((s.toList.dropWhile jsWhitespace).reverse.dropWhile jsWhitespace).reverse)

/-- Truthiness of a JS string: nonempty. -/
def jsTruthy (s : String) : Bool :=
  decide (s ≠ "")

/-- `s.substring(0, n)` (clamps when the string is shorter). -/
def jsTake (n : Nat) (s : String) : String :=
  String.mk (s.toList.take n)

/-- `s.startsWith(p)` of JavaScript. -/
def jsStartsWith (s p : String) : Bool :=
  p.toList.isPrefixOf s.toList

/-- Prepend a character to the first piece of a split result. -/
def consHead (c : Char) : List (List Char) → List (List Char)
  | [] => [[c]]
  | h :: t => (c :: h) :: t

/-- Structural split of a character list at every delimiter character
(JS `split` on a character class: empty pieces are kept). -/
def splitCharsAux (p : Char → Bool) : List Char → List (List Char)
  | [] => [[]]
  | c :: rest =>
    if p c then [] :: splitCharsAux p rest
    else consHead c (splitCharsAux p rest)

/-- `s.split(regexCharClass)` of JavaScript. -/
def jsSplit (s : String) (p : Char → Bool) : List String :=
  (splitCharsAux p s.toList).map String.mk

/-- The backtick character (written by code point). -/
def backtickChar : Char := Char.ofNat 96

/-- Structural split of a character list at every occurrence of a
triple-backtick fence (the pieces of `splitOn` with separator three
backticks). -/
def splitFenceAux : List Char → List (List Char)
  | [] => [[]]
  | a :: b :: c :: rest =>
    if a == backtickChar && b == backtickChar && c == backtickChar then
      [] :: splitFenceAux rest
    else consHead a (splitFenceAux (b :: c :: rest))
  | a :: rest => consHead a (splitFenceAux rest)

/-- `s.split` / `splitOn` at triple-backtick fences. -/
def splitFence (s : String) : List String :=
  (splitFenceAux s.toList).map String.mk

/-- `Array.prototype.join` with a separator. -/
def jsJoin (sep : String) : List String → String
  | [] => ""
  | [x] => x
  | x :: rest => x ++ sep ++ jsJoin sep rest

/-! ## Data model (src/unnamed/part_017 and `@/types`) -/

/-- The five fixed proposal angles. -/
inductive ProposalAngle where
  | socialIssue
  | trendAligned
  | seasonal
  | uniqueStory
  | industryInnovative
deriving DecidableEq, Repr

/-- `AIAnalysisInput` restricted to the fields the core reads
(`priceRange` and the raw `releaseDate`/`selectedAI` only flow into prompt
text or are replaced by oracles). -/
structure AIAnalysisInput where
  productServiceName : String
  description : String
  industry : String
  features : List String
  targetCustomers : String
deriving Repr, DecidableEq

/-- Result of `checkCompatibility`. -/
structure CompatibilityAssessment where
  score : Int
  isCompatible : Bool
  reasons : List String
deriving Repr, DecidableEq

/-! ## Compatibility scorer (src/lib/error-handler.ts, second document) -/

/-- Delimiter class of `industry.toLowerCase().split(/[、・\s]/)`. -/
def industryDelims (c : Char) : Bool :=
  c == '、' || c == '・' || jsWhitespace c

/-- Delimiter class of `text.split(/[\s、。！？]/)` in `extractKeywords`. -/
def keywordDelims (c : Char) : Bool :=
  jsWhitespace c || c == '、' || c == '。' || c == '！' || c == '？'

/-- The fixed stop-word list of `extractKeywords`. -/
def commonWords : List String :=
  ["の", "を", "に", "が", "は", "と", "で", "も", "から", "まで",
   "です", "ます", "する", "こと"]

/-- `extractKeywords`: split, keep words of length > 1 outside the stop-word
list, take the first 10. -/
def extractKeywords (text : String) : List String :=
  ((jsSplit text keywordDelims).filter
    (fun w => decide (1 < w.length) && !(commonWords.contains w))).take 10

/-- Industry-vs-trend component (first `if` block of `checkCompatibility`):
score contribution and reason strings. -/
def industryComponent (input : AIAnalysisInput) (trends : List String) :
    Int × List String :=
  if jsTruthy input.industry && !trends.isEmpty then
    let industryKeywords := jsSplit (jsToLower input.industry) industryDelims
    let trendMatches := trends.filter
      (fun trend => industryKeywords.any (fun k => jsIncludes (jsToLower trend) k))
    match trendMatches with
    | [] => (0, [])
    | t :: _ =>
      (30, ["業界「" ++ input.industry ++ "」とトレンド「" ++ t ++ "」が関連しています"])
  else (0, [])

/-- Description-vs-trend component (second `if` block of `checkCompatibility`). -/
def descriptionComponent (input : AIAnalysisInput) (trends : List String) :
    Int × List String :=
  if jsTruthy input.description && !trends.isEmpty then
    let descriptionKeywords := extractKeywords input.description
    let trendMatches := trends.filter
      (fun trend => descriptionKeywords.any
        (fun k => jsIncludes (jsToLower trend) (jsToLower k)))
    match trendMatches with
    | [] => (0, [])
    | t :: _ => (30, ["商品説明とトレンド「" ++ t ++ "」が関連しています"])
  else (0, [])

/-- Feature-vs-trend component (third `if` block of `checkCompatibility`),
matching the first 3 characters of a feature inside a trend keyword. -/
def featureComponent (input : AIAnalysisInput) (trends : List String) :
    Int × List String :=
  if !input.features.isEmpty && !trends.isEmpty then
    let featureMatches := input.features.filter
      (fun feature => trends.any
        (fun trend => jsIncludes (jsToLower trend) (jsTake 3 (jsToLower feature))))
    match featureMatches with
    | [] => (0, [])
    | f :: _ => (20, ["特徴「" ++ f ++ "」がトレンドと関連しています"])
  else (0, [])

/-- Social-topic keyword list of the `social-issue` angle check. -/
def socialKeywords : List String :=
  ["社会", "課題", "解決", "貢献", "支援", "環境", "健康", "教育", "貧困"]

/-- Seasonal keyword list of the `seasonal` angle check. -/
def seasonalKeywords : List String :=
  ["春", "夏", "秋", "冬", "季節", "時期", "タイミング"]

/-- Novelty keyword list of the `unique-story` angle check. -/
def uniqueKeywords : List String :=
  ["独自", "新", "初", "革新的", "ユニーク", "唯一", "初めて"]

/-- `checkAngleCompatibility`: the angle-specific bonus (score, optional
reason). `break` paths of the TS `switch` return score 0 with no reason. -/
def checkAngleCompatibility (input : AIAnalysisInput) (angle : ProposalAngle) :
    Int × Option String :=
  match angle with
  | .socialIssue =>
    if socialKeywords.any (fun k =>
        jsIncludes input.description k || input.features.any (fun f => jsIncludes f k))
    then (20, some "社会課題解決型のアングルに適合しています")
    else (0, none)
  | .trendAligned =>
    (20, some "トレンド連動型のアングルに適合しています")
  | .seasonal =>
    if seasonalKeywords.any (fun k => jsIncludes input.description k)
    then (20, some "季節性活用型のアングルに適合しています")
    else (10, some "季節性は中程度の適合性です")
  | .uniqueStory =>
    if uniqueKeywords.any (fun k =>
        jsIncludes input.description k || input.features.any (fun f => jsIncludes f k))
    then (20, some "ユニークストーリー型のアングルに適合しています")
    else (0, none)
  | .industryInnovative =>
    if jsTruthy input.industry
    then (20, some ("業界「" ++ input.industry ++ "」に革新をもたらすアングルに適合しています"))
    else (0, none)

/-- `checkCompatibility`: additive components, `Math.min(score, 100)` clamp,
`isCompatible` decided on the unclamped sum (as in the source), reasons in the
fixed industry → description → feature → angle order. -/
def checkCompatibility (input : AIAnalysisInput) (trends : List String)
    (angle : ProposalAngle) : CompatibilityAssessment :=
  let ip := industryComponent input trends
  let dp := descriptionComponent input trends
  let fp := featureComponent input trends
  let ap := checkAngleCompatibility input angle
  let score : Int := ip.1 + dp.1 + fp.1 + ap.1
  { score := min score 100
    isCompatible := decide (30 ≤ score)
    reasons := ip.2 ++ dp.2 ++ fp.2 ++ (match ap.2 with | some r => [r] | none => []) }

/-! ## Provider adapters and router (src/lib/ai-client.ts, first document) -/

/-- Provider credentials; an unset environment variable is `""`. -/
structure Env where
  openai : String
  anthropic : String
  gemini : String
deriving Repr, DecidableEq

/-- The `selectedAI` type (`'openai' | 'claude' | 'gemini' | 'auto'`). -/
inductive AIType where
  | openai
  | claude
  | gemini
  | auto
deriving DecidableEq, Repr

/-- Outcome of one Gemini per-model HTTP interaction, as classified by the
source's branches: `success` is an OK response with extracted text;
`notFound` is the in-`try` HTTP-404 branch (`response.status === 404`), whose
message embeds the status text and which `continue`s directly; `failure` is
any thrown error (non-OK non-404 responses, HTML responses, JSON parse
errors, missing content, safety blocks), handled by the `catch` block. -/
inductive GeminiModelOutcome where
  | success (content : String)
  | notFound (msg : String)
  | failure (msg : String)
deriving Repr, DecidableEq

/-- The ordered Gemini model list of `generateWithGemini`. -/
def geminiModels : List String :=
  ["gemini-2.5-flash-preview-05-20", "gemini-2.5-pro-preview-03-25",
   "gemini-1.5-flash", "gemini-1.5-pro"]

/-- The `for (const model of models)` loop of `generateWithGemini`, carrying
`lastError`.  A `notFound` outcome `continue`s; a `failure` outcome is caught:
it `continue`s when its message contains `404` or when further models remain
(`models.indexOf(model) < models.length - 1`), and is rethrown on the last
model.  After the loop the retained `lastError` is surfaced, replaced by a
dedicated message when it mentions `404`/`NOT_FOUND`. -/
def geminiTryModels (call : String → GeminiModelOutcome) :
    List String → Option String → Except String String
  | [], lastError =>
    match lastError with
    | some e =>
      if jsIncludes e "404" || jsIncludes e "NOT_FOUND" then
        .error "Gemini API: 利用可能なモデルが見つかりませんでした。APIキーが正しく設定されているか、APIキーに適切な権限があるか確認してください。"
      else .error e
    | none => .error "Gemini API: すべてのモデルでエラーが発生しました"
  | model :: rest, _ =>
    match call model with
    | .success content => .ok content
    | .notFound e => geminiTryModels call rest (some e)
    | .failure e =>
      if jsIncludes e "404" then geminiTryModels call rest (some e)
      else if !rest.isEmpty then geminiTryModels call rest (some e)
      else .error e

/-- `generateWithGemini`: trimmed-key check, then the model loop. -/
def generateWithGemini (env : Env) (call : String → GeminiModelOutcome) :
    Except String String :=
  if !jsTruthy (jsTrim env.gemini) then
    .error "GEMINI_API_KEYが設定されていません。.env.localファイルを確認し、開発サーバーを再起動してください。"
  else geminiTryModels call geminiModels none

/-- `generateWithOpenAI`: key check, then the call outcome (oracle `oc`). -/
def generateWithOpenAI (env : Env) (oc : Except String String) :
    Except String String :=
  if !jsTruthy env.openai then .error "OPENAI_API_KEYが設定されていません" else oc

/-- `generateWithClaude`: key check, then the call outcome (oracle `cc`). -/
def generateWithClaude (env : Env) (cc : Except String String) :
    Except String String :=
  if !jsTruthy env.anthropic then .error "ANTHROPIC_API_KEYが設定されていません" else cc

/-- The `NoProviderConfigured` message of `generateWithAI`. -/
def noProviderMsg : String :=
  "AI APIキーが設定されていません。OPENAI_API_KEY、ANTHROPIC_API_KEY、またはGEMINI_API_KEYを設定してください。"

/-- `generateWithAI`: explicit provider branches, then the `auto` cascade
OpenAI → Claude → Gemini with its nested `try`/`catch` structure.  `gc` is
the outcome of `await generateWithGemini(prompt)` (see `generateWithGemini`
for its internals). -/
def generateWithAI (env : Env) (aiType : AIType)
    (oc cc gc : Except String String) : Except String String :=
  match aiType with
  | .openai =>
    if jsTruthy env.openai then generateWithOpenAI env oc
    else .error "OPENAI_API_KEYが設定されていません"
  | .claude =>
    if jsTruthy env.anthropic then generateWithClaude env cc
    else .error "ANTHROPIC_API_KEYが設定されていません"
  | .gemini =>
    if jsTruthy env.gemini then gc
    else .error "GEMINI_API_KEYが設定されていません"
  | .auto =>
    if jsTruthy env.openai then
      match generateWithOpenAI env oc with
      | .ok r => .ok r
      | .error e =>
        if jsTruthy env.anthropic then
          match generateWithClaude env cc with
          | .ok r => .ok r
          | .error claudeError =>
            if jsTruthy env.gemini then gc else .error claudeError
        else if jsTruthy env.gemini then gc
        else .error e
    else if jsTruthy env.anthropic then
      match generateWithClaude env cc with
      | .ok r => .ok r
      | .error e => if jsTruthy env.gemini then gc else .error e
    else if jsTruthy env.gemini then gc
    else .error noProviderMsg

/-- Specification-side router (from the spec's words, for comparison with
`generateWithAI .auto`): try the provider outcomes `r :: rest` in order,
return the first success, otherwise the last failure. -/
def routerTryEach (r : Except String String) :
    List (Except String String) → Except String String
  | [] => r
  | r' :: rest =>
    match r with
    | .ok c => .ok c
    | .error _ => routerTryEach r' rest

/-- Specification-side router: the configured providers in the fixed order
OpenAI, Claude, Gemini; first success wins; all exhausted surfaces the last
failure; none configured fails with `noProviderMsg`. -/
def routerSpec (env : Env) (oc cc gc : Except String String) :
    Except String String :=
  let configured :=
    (if jsTruthy env.openai then [oc] else []) ++
    (if jsTruthy env.anthropic then [cc] else []) ++
    (if jsTruthy env.gemini then [gc] else [])
  match configured with
  | [] => .error noProviderMsg
  | r :: rest => routerTryEach r rest

/-! ## Proposal orchestrator (src/unnamed/part_017, first document) -/

/-- Parsed fields of an AI proposal response (`JSON.parse(aiResponse.content)`);
an absent or empty field is `""` (both falsy under `||` in the source). -/
structure AIContent where
  title : String
  introduction : String
  background : String
  development : String
  recommendation : String
  expectedMediaReaction : String
deriving Repr, DecidableEq

/-- The composed `PressRelease` preview carried by a proposal (fields the
orchestrator fills; `generateId()`/timestamps dropped, see the header note). -/
structure PressReleasePreview where
  title : String
  introduction : String
  sections : List (String × String)
deriving Repr, DecidableEq

/-- `AIGeneratedProposal` as assembled by part_017 (`id` dropped, being a
random identifier no behaviour reads). -/
structure Proposal where
  angle : ProposalAngle
  title : String
  introduction : String
  background : String
  development : String
  recommendation : String
  expectedMediaReaction : String
  preview : PressReleasePreview
  compatibilityScore : Option Int
  isCompatible : Bool
  scalePowers : List String
deriving Repr, DecidableEq

/-- `ANGLE_TO_SCALE_POWERS` mapped through `SCALE_POWERS[power].name`. -/
def angleScalePowerNames (angle : ProposalAngle) : List String :=
  match angle with
  | .socialIssue => ["マルチ憑依力", "ナラティブ力", "見立て力"]
  | .trendAligned => ["見立て力", "ナラティブ力", "マルチ憑依力"]
  | .seasonal => ["見立て力", "変動実行力", "ナラティブ力"]
  | .uniqueStory => ["ナラティブ力", "背負い力", "マルチ憑依力"]
  | .industryInnovative => ["背負い力", "見立て力", "変動実行力"]

/-- `getSeasonalContext`, with the current month (1–12) as an argument. -/
def getSeasonalContext (month : Nat) : String :=
  if 3 ≤ month ∧ month ≤ 5 then "春の時期"
  else if 6 ≤ month ∧ month ≤ 8 then "夏の時期"
  else if 9 ≤ month ∧ month ≤ 11 then "秋の時期"
  else "冬の時期"

/-- `${analysis.trends[0]}` in a template literal: JS interpolates the string
"undefined" when the list is empty. -/
def trendsHead (trends : List String) : String :=
  trends.headD "undefined"

/-- `generateContentForAngle`: the six template strings for one angle.
`trends` is `analysis.trends`; `month` feeds `getSeasonalContext`. -/
def generateContentForAngle (input : AIAnalysisInput) (angle : ProposalAngle)
    (trends : List String) (month : Nat) :
    String × String × String × String × String × String :=
  let productName := input.productServiceName
  let features := jsJoin "、" input.features
  match angle with
  | .socialIssue =>
    (productName ++ "が社会課題の解決に貢献",
     productName ++ "は、現代社会が直面する課題を解決するために開発されました。" ++ input.description,
     "現在、" ++ (if jsTruthy input.industry then input.industry else "社会") ++ "では様々な課題が存在しています。" ++ input.description ++ "を通じて、これらの課題に取り組んでいます。",
     "開発の背景には、" ++ (if jsTruthy input.targetCustomers then input.targetCustomers else "ユーザー") ++ "のニーズがあります。" ++ features ++ "などの特徴を備えています。",
     "社会課題解決型のアングルは、メディアの関心が高く、社会的意義を強調することで多くのメディアに取り上げられる可能性があります。",
     "社会課題に取り組む姿勢が評価され、テレビ、新聞、Webメディアなど幅広いメディアでの掲載が期待されます。")
  | .trendAligned =>
    (productName ++ "が" ++ trendsHead trends ++ "のトレンドに対応",
     productName ++ "は、現在注目されている" ++ trendsHead trends ++ "のトレンドに対応したサービスです。" ++ input.description,
     "現在の市場では、" ++ jsJoin "、" trends ++ "などのトレンドが注目されています。",
     productName ++ "は、これらのトレンドを踏まえて開発されました。" ++ features ++ "などの特徴があります。",
     "トレンド連動型のアングルは、時事性が高く、最新のニュースと関連付けることでメディアの関心を引くことができます。",
     "トレンドに敏感なWebメディアや業界誌での掲載が期待されます。")
  | .seasonal =>
    (productName ++ "が" ++ getSeasonalContext month ++ "に最適",
     productName ++ "は、" ++ getSeasonalContext month ++ "に最適なサービスです。" ++ input.description,
     getSeasonalContext month ++ "は、" ++ (if jsTruthy input.industry then input.industry else "市場") ++ "にとって重要な時期です。",
     "この時期に合わせて、" ++ productName ++ "を開発しました。" ++ features ++ "などの特徴を備えています。",
     "季節性を活用することで、タイムリーなニュースとして取り上げられやすくなります。",
     "季節に合わせたニュースとして、多くのメディアで取り上げられる可能性があります。")
  | .uniqueStory =>
    (productName ++ "の独自性とストーリー性",
     productName ++ "は、独自のアプローチで" ++ input.description ++ "を実現します。",
     "従来の" ++ (if jsTruthy input.industry then input.industry else "サービス") ++ "とは異なるアプローチを採用しています。",
     "開発の過程で、" ++ features ++ "などの独自の特徴を実現しました。",
     "ユニークなストーリー性は、メディアの関心を引く重要な要素です。",
     "独自性が評価され、専門メディアや業界誌での詳細な紹介が期待されます。")
  | .industryInnovative =>
    (productName ++ "が" ++ (if jsTruthy input.industry then input.industry else "業界") ++ "に革新をもたらす",
     productName ++ "は、" ++ (if jsTruthy input.industry then input.industry else "業界") ++ "に革新をもたらすサービスです。" ++ input.description,
     (if jsTruthy input.industry then input.industry else "業界") ++ "では、従来のアプローチからの変革が求められています。",
     productName ++ "は、" ++ features ++ "などの革新的な特徴により、業界の常識を変えます。",
     "業界革新型のアングルは、業界関係者や専門メディアの関心が高く、詳細な紹介が期待されます。",
     "業界誌や専門メディアでの詳細な紹介、そして業界関係者からの注目が期待されます。")

/-- Compose the preview press release from a proposal's parts, as both
`generateProposalFromTemplate` and `createProposalFromAIResponse` do. -/
def composePreview (title introduction background development : String) :
    PressReleasePreview :=
  { title := title
    introduction := introduction
    sections := [("背景", background), ("開発経緯", development)] }

/-- `generateProposalFromTemplate`. -/
def generateProposalFromTemplate (input : AIAnalysisInput) (angle : ProposalAngle)
    (trends : List String) (month : Nat)
    (compatibility : CompatibilityAssessment) : Proposal :=
  match generateContentForAngle input angle trends month with
  | (title, introduction, background, development, recommendation, expectedMediaReaction) =>
    { angle := angle
      title := title
      introduction := introduction
      background := background
      development := development
      recommendation := recommendation
      expectedMediaReaction := expectedMediaReaction
      preview := composePreview title introduction background development
      compatibilityScore := some compatibility.score
      isCompatible := compatibility.isCompatible
      scalePowers := angleScalePowerNames angle }

/-- `createProposalFromAIResponse`, with the `||` defaults on each field. -/
def createProposalFromAIResponse (input : AIAnalysisInput) (angle : ProposalAngle)
    (aiContent : AIContent) (compatibility : CompatibilityAssessment) : Proposal :=
  let title :=
    if jsTruthy aiContent.title then aiContent.title
    else if jsTruthy input.productServiceName then input.productServiceName
    else "プレスリリース"
  let introduction := aiContent.introduction
  let background := aiContent.background
  let development := aiContent.development
  let recommendation :=
    if jsTruthy aiContent.recommendation then aiContent.recommendation
    else "このアングルはメディアの関心を引く可能性があります。"
  let expectedMediaReaction :=
    if jsTruthy aiContent.expectedMediaReaction then aiContent.expectedMediaReaction
    else "幅広いメディアでの掲載が期待されます。"
  { angle := angle
    title := title
    introduction := introduction
    background := background
    development := development
    recommendation := recommendation
    expectedMediaReaction := expectedMediaReaction
    preview := composePreview title introduction background development
    compatibilityScore := some compatibility.score
    isCompatible := compatibility.isCompatible
    scalePowers := angleScalePowerNames angle }

/-- `hasAIApi` of `generateProposalForAngle` (part_017 line 274): only the
OpenAI and Anthropic credentials. -/
def hasProposalAI (env : Env) : Bool :=
  jsTruthy env.openai || jsTruthy env.anthropic

/-- `hasAIApi` of `generateProposals` (part_017 line 234): all three
credentials. -/
def hasAnyAI (env : Env) : Bool :=
  jsTruthy env.openai || jsTruthy env.anthropic || jsTruthy env.gemini

/-- `generateProposalForAngle`.  `ai angle` is the outcome of the
`generateWithAI` call for this angle's prompt (the prompt is a pure function
of arguments already present); `jsonParse` models `JSON.parse` on the
response body (`none` = parse exception).  Every failure path falls back to
the template generator, so the function is total. -/
def generateProposalForAngle (env : Env)
    (ai : ProposalAngle → Except String String)
    (jsonParse : String → Option AIContent)
    (input : AIAnalysisInput) (angle : ProposalAngle)
    (trends : List String) (month : Nat)
    (compatibility : CompatibilityAssessment) : Proposal :=
  if hasProposalAI env then
    match ai angle with
    | .ok content =>
      match jsonParse content with
      | some aiContent => createProposalFromAIResponse input angle aiContent compatibility
      | none => generateProposalFromTemplate input angle trends month compatibility
    | .error _ => generateProposalFromTemplate input angle trends month compatibility
  else generateProposalFromTemplate input angle trends month compatibility

/-- The fixed angle order of `generateProposals`. -/
def anglesList : List ProposalAngle :=
  [.socialIssue, .trendAligned, .seasonal, .uniqueStory, .industryInnovative]

/-- The skip test of `generateProposals` (part_017 line 235):
`compatibility.score < 10 && hasAIApi && angle !== 'trend-aligned'`. -/
def skipsAngle (env : Env) (input : AIAnalysisInput) (trends : List String)
    (angle : ProposalAngle) : Bool :=
  decide ((checkCompatibility input trends angle).score < 10) &&
  hasAnyAI env && decide (angle ≠ .trendAligned)

/-- The `for (const angle of angles)` loop of `generateProposals`: per angle,
compute the assessment, skip on the skip test, otherwise push the generated
proposal (whose generation never throws, so the `catch` is unreachable). -/
def generateProposalsLoop (env : Env)
    (ai : ProposalAngle → Except String String)
    (jsonParse : String → Option AIContent)
    (input : AIAnalysisInput) (trends : List String) (month : Nat) :
    List ProposalAngle → List Proposal
  | [] => []
  | angle :: rest =>
    let compatibility := checkCompatibility input trends angle
    if skipsAngle env input trends angle then
      generateProposalsLoop env ai jsonParse input trends month rest
    else
      generateProposalForAngle env ai jsonParse input angle trends month compatibility ::
        generateProposalsLoop env ai jsonParse input trends month rest

/-- `generateProposals`: the loop over the five fixed angles. -/
def generateProposals (env : Env)
    (ai : ProposalAngle → Except String String)
    (jsonParse : String → Option AIContent)
    (input : AIAnalysisInput) (trends : List String) (month : Nat) :
    List Proposal :=
  generateProposalsLoop env ai jsonParse input trends month anglesList

/-- The keep test of the POST-level filter (part_017 lines 43–46):
an undefined score is kept, otherwise the score must be at least 10. -/
def keepProposal (p : Proposal) : Bool :=
  match p.compatibilityScore with
  | none => true
  | some s => decide (10 ≤ s)

/-- `p.compatibilityScore || 0` of the best-proposal reduce. -/
def proposalScoreD (p : Proposal) : Int :=
  p.compatibilityScore.getD 0

/-- The `proposals.reduce(...)` picking the best-scoring proposal
(strictly-greater comparison, so the earliest maximum wins). -/
def pickBestProposal (best : Proposal) : List Proposal → Proposal
  | [] => best
  | current :: rest =>
    pickBestProposal
      (if proposalScoreD current > proposalScoreD best then current else best) rest

/-- Part_017 POST lines 43–60: filter out scores below 10, and if that empties
a non-empty list, return the single best-scoring proposal instead. -/
def selectFinalProposals (proposals : List Proposal) : List Proposal :=
  let filteredProposals := proposals.filter keepProposal
  match proposals, filteredProposals with
  | p :: rest, [] => [pickBestProposal p rest]
  | _, _ => filteredProposals

/-! ## Error mapping (src/lib/error-handler.ts, first document) -/

/-- `ErrorType`. -/
inductive ErrorType where
  | validationError
  | apiError
  | networkError
  | aiGenerationError
  | exportError
  | fileError
deriving DecidableEq, Repr

/-- `AppError` restricted to the fields the routes read. -/
structure AppError where
  etype : ErrorType
  message : String
deriving DecidableEq, Repr

/-- `toAppError` on an `Error`'s message (all errors reaching it in the
modelled routes are `Error` instances carrying a message). -/
def toAppError (msg : String) : AppError :=
  if jsIncludes msg "fetch" || jsIncludes msg "network" then
    { etype := .networkError
      message := "ネットワークエラーが発生しました。インターネット接続を確認してください。" }
  else if jsIncludes msg "API" || jsIncludes msg "500" || jsIncludes msg "400" then
    { etype := .apiError
      message := "サーバーエラーが発生しました。しばらく時間をおいてから再度お試しください。" }
  else if jsIncludes msg "AI" || jsIncludes msg "OpenAI" || jsIncludes msg "Claude" ||
      jsIncludes msg "Gemini" then
    if jsIncludes msg "Gemini" then
      if jsIncludes msg "API_KEY" || jsIncludes msg "401" || jsIncludes msg "403" then
        { etype := .aiGenerationError
          message := "Gemini APIキーが無効です。APIキーが正しく設定されているか確認してください。" }
      else if jsIncludes msg "404" || jsIncludes msg "model" then
        { etype := .aiGenerationError
          message := "Gemini APIのモデルが見つかりません。モデル名を確認してください。" }
      else if jsIncludes msg "429" || jsIncludes msg "quota" || jsIncludes msg "rate limit" then
        { etype := .aiGenerationError
          message := "Gemini APIのレート制限に達しました。しばらく時間をおいてから再度お試しください。" }
      else
        { etype := .aiGenerationError, message := "Gemini APIエラー: " ++ msg }
    else
      { etype := .aiGenerationError
        message := "AI生成に失敗しました。APIキーが正しく設定されているか確認してください。" }
  else if jsIncludes msg "PDF" || jsIncludes msg "Word" || jsIncludes msg "export" then
    { etype := .exportError
      message := "ファイルの出力に失敗しました。ブラウザのコンソールを確認してください。" }
  else if jsIncludes msg "file" || jsIncludes msg "image" || jsIncludes msg "upload" then
    { etype := .fileError
      message := "ファイルの処理に失敗しました。ファイル形式とサイズを確認してください。" }
  else
    { etype := .apiError
      message := if jsTruthy msg then msg else "予期しないエラーが発生しました。" }

/-- `getUserFriendlyMessage`. -/
def getUserFriendlyMessage (e : AppError) : String :=
  match e.etype with
  | .validationError =>
    if jsTruthy e.message then e.message else "入力内容に誤りがあります。確認してください。"
  | .networkError => "ネットワークエラーが発生しました。インターネット接続を確認してください。"
  | .apiError =>
    if jsTruthy e.message then e.message
    else "サーバーエラーが発生しました。しばらく時間をおいてから再度お試しください。"
  | .aiGenerationError =>
    if jsTruthy e.message then e.message
    else "AI生成に失敗しました。APIキーが正しく設定されているか確認してください。"
  | .exportError =>
    if jsTruthy e.message then e.message
    else "ファイルの出力に失敗しました。ブラウザのコンソールを確認してください。"
  | .fileError =>
    if jsTruthy e.message then e.message
    else "ファイルの処理に失敗しました。ファイル形式とサイズを確認してください。"

/-! ## AI-assist route (src/unnamed/part_016) -/

/-- The assist task kinds (`'title' | 'introduction' | 'section'`). -/
inductive AssistType where
  | title
  | introduction
  | section
deriving DecidableEq, Repr

/-- A title proposal `{title, approach}`. -/
structure TitleProposal where
  title : String
  approach : String
deriving DecidableEq, Repr

/-- Shape of a successful `JSON.parse` of the title response:
a `proposals` array, a string `title` field, or neither. -/
inductive ParsedTitle where
  | withProposals (ps : List TitleProposal)
  | withTitle (t : String)
  | plain
deriving DecidableEq, Repr

/-- The `PressRelease` fields the assist route reads.  `releaseDate` is the
already-formatted `toLocaleDateString` text when present (`none` = falsy). -/
structure PressReleaseDoc where
  companyName : String
  title : String
  subtitle : String
  slogan : String
  introduction : String
  releaseDate : Option String
  sections : List (String × String)
deriving DecidableEq, Repr

/-- Opening-brace character (written by code point to keep it out of string
literals). -/
def lbraceChar : Char := Char.ofNat 123

/-- Closing-brace character. -/
def rbraceChar : Char := Char.ofNat 125

/-- Interior of the first fenced code block, per the route's
`/```(?:json)?\s*([\s\S]*?)```/` match: the text between the first two fences
with an optional leading `json` marker and leading whitespace consumed. -/
def extractFencedInner (s : String) : Option String :=
  match splitFence s with
  | _ :: b :: _ :: _ =>
    let b1 := if jsStartsWith b "json" then String.mk (b.toList.drop 4) else b
    some (String.mk (b1.toList.dropWhile jsWhitespace))
  | _ => none

/-- `indexOf` of a character over a string's characters. -/
def firstCharIdx (l : List Char) (c : Char) : Option Nat :=
  l.findIdx? (· == c)

/-- `lastIndexOf` of a character. -/
def lastCharIdx (l : List Char) (c : Char) : Option Nat :=
  match l.reverse.findIdx? (· == c) with
  | some i => some (l.length - 1 - i)
  | none => none

/-- The first-`{`-to-last-`}` substring step of the title pipeline (applied
when the current candidate does not start with `{`). -/
def braceSlice (s : String) : String :=
  let l := s.toList
  match firstCharIdx l lbraceChar, lastCharIdx l rbraceChar with
  | some f, some t => if f < t then String.mk ((l.drop f).take (t + 1 - f)) else s
  | _, _ => s

/-- The candidate JSON string handed to `JSON.parse` by the title branch:
trim, unwrap a fenced block (trimming its interior), then the brace slice
when the candidate does not start with `{`. -/
def titleJsonString (content : String) : String :=
  let js0 := jsTrim content
  let js1 :=
    match extractFencedInner js0 with
    | some inner => jsTrim inner
    | none => js0
  if jsStartsWith js1 (String.mk [lbraceChar]) then js1 else braceSlice js1

/-- Leading-character class of the line regex `^[\d\-・•]\s*(.+)$`. -/
def bulletChar (c : Char) : Bool :=
  c.isDigit || c == '-' || c == '・' || c == '•'

/-- Capture group of `^[\d\-・•]\s*(.+)$` on a (trimmed) line, with JS
backtracking semantics: after the class character, greedy `\s*` then a
non-empty capture; when the remainder is all whitespace the engine backtracks
so the capture is the final whitespace character. -/
def bulletCapture (t : String) : Option String :=
  match t.toList with
  | [] => none
  | c :: rest =>
    if bulletChar c then
      match rest with
      | [] => none
      | _ =>
        match rest.dropWhile jsWhitespace with
        | [] =>
          match rest.getLast? with
          | some lc => some (String.mk [lc])
          | none => none
        | r => some (String.mk r)
    else none

/-- The `else if` branch of the fallback loop: a plain line of length
strictly between 5 and 200 that does not start with `【` nor contain `：`. -/
def plainLineCandidate (t : String) : Option TitleProposal :=
  if decide (5 < t.length) && decide (t.length < 200) &&
      !(jsStartsWith t "【") && !(jsIncludes t "：") then
    some { title := t, approach := "抽出されたタイトル" }
  else none

/-- One iteration of the fallback loop: try the bullet regex with the strict
length bounds on the capture, otherwise the plain-line branch. -/
def lineCandidate (line : String) : Option TitleProposal :=
  let trimmed := jsTrim line
  match bulletCapture trimmed with
  | some cap =>
    if decide (5 < cap.length) && decide (cap.length < 200) then
      some { title := jsTrim cap, approach := "抽出されたタイトル" }
    else plainLineCandidate trimmed
  | none => plainLineCandidate trimmed

/-- `responseContent.split('\n').filter(line => line.trim().length > 0)`. -/
def nonblankLines (content : String) : List String :=
  (jsSplit content (· == '\n')).filter (fun line => jsTruthy (jsTrim line))

/-- The `for (const line of lines)` push loop of the fallback extraction. -/
def extractTitlesLoop : List String → List TitleProposal
  | [] => []
  | line :: rest =>
    match lineCandidate line with
    | some p => p :: extractTitlesLoop rest
    | none => extractTitlesLoop rest

/-- `.replace(/```[\s\S]*?```/g, '')` on the `splitOn`-fence decomposition:
every completed fence pair is dropped, an unpaired final fence is kept. -/
def removeFencesParts : List String → String
  | [] => ""
  | [a] => a
  | [a, b] => a ++ "```" ++ b
  | a :: _ :: rest => a ++ removeFencesParts rest

/-- Global fenced-block removal. -/
def removeFences (s : String) : String :=
  removeFencesParts (splitFence s)

/-- The last-resort single title:
`responseContent.replace(/```[\s\S]*?```/g, '').trim().split('\n')[0].trim()`. -/
def cleanFirstLine (content : String) : String :=
  jsTrim ((jsSplit (jsTrim (removeFences content)) (· == '\n')).headD "")

/-- Result union of the title branch (`proposals` object or a bare string). -/
inductive TitleResult where
  | proposals (ps : List TitleProposal)
  | single (s : String)
deriving DecidableEq, Repr

/-- The title branch of the assist route on a successful AI response
(part_016 lines 141–221): JSON attempts keyed by the candidate string, then
the line-based fallback, then the last-resort first line, then the thrown
failure message.  `jsonParse content = none` models a `JSON.parse` exception. -/
def titlePipeline (jsonParse : String → Option ParsedTitle) (content : String) :
    Except String TitleResult :=
  match jsonParse (titleJsonString content) with
  | some (.withProposals ps) => .ok (.proposals ps)
  | some (.withTitle t) =>
    if jsTruthy t then .ok (.proposals [{ title := t, approach := "AI生成" }])
    else .ok (.single content)
  | some .plain => .ok (.single content)
  | none =>
    let extractedTitles := extractTitlesLoop (nonblankLines content)
    if !extractedTitles.isEmpty then .ok (.proposals (extractedTitles.take 5))
    else
      let cleanTitle := cleanFirstLine content
      if decide (0 < cleanTitle.length) && decide (cleanTitle.length < 200) then
        .ok (.proposals [{ title := cleanTitle, approach := "AI生成" }])
      else .error "タイトル案の生成に失敗しました。AIがJSON形式で返していない可能性があります。"

/-- `generateTemplateBased`. -/
def generateTemplateBased (ty : AssistType) (pr : PressReleaseDoc)
    (sectionContent : String) : String :=
  match ty with
  | .title =>
    if jsTruthy pr.companyName then pr.companyName ++ "が新サービスをリリース"
    else if jsTruthy pr.introduction then
      let intro := jsTake 50 pr.introduction
      let cleaned := jsTrim (String.mk (intro.toList.filter (fun c => !(c == '。' || c == '、'))))
      if jsTruthy cleaned then cleaned else "プレスリリース"
    else "プレスリリース"
  | .introduction =>
    if jsTruthy pr.introduction then pr.introduction
    else
      let companyName := if jsTruthy pr.companyName then pr.companyName else "当社"
      let releaseDate := match pr.releaseDate with | some d => d | none => "本日"
      companyName ++ "は、" ++ releaseDate ++ "に新サービスをリリースいたします。"
  | .section =>
    if jsTruthy sectionContent then sectionContent else "セクションの内容を入力してください。"

/-- `hasAIApi` of the assist route: trimmed truthiness of any of the three
credentials. -/
def hasAssistAI (env : Env) : Bool :=
  jsTruthy (jsTrim env.openai) || jsTruthy (jsTrim env.anthropic) ||
  jsTruthy (jsTrim env.gemini)

/-- The 400 message of the title branch when no credential is configured
(production build: no debug appendix). -/
def titleNoKeyMsg : String :=
  "タイトル案の生成にはAI APIキーの設定が必要です。OPENAI_API_KEY、ANTHROPIC_API_KEY、またはGEMINI_API_KEYのいずれかを設定してください。"

/-- The rethrow of the title branch's `catch (aiError)` block: a Gemini- or
key-related message is wrapped as a Gemini error, anything else as a failed
title generation. -/
def wrapTitleErr (m : String) : String :=
  if jsIncludes m "Gemini" || jsIncludes m "APIキー" || jsIncludes m "API key" then
    "Gemini APIエラー: " ++ m
  else "タイトル案の生成に失敗しました: " ++ m

/-- The message of the outer `catch`'s 500 response (production build). -/
def userErrMsg (m : String) : String :=
  getUserFriendlyMessage (toAppError m)

/-- An assist-route HTTP response: a string result, a proposals result, or an
error with status and message. -/
inductive RouteResp where
  | okStr (s : String)
  | okProposals (ps : List TitleProposal)
  | err (status : Nat) (msg : String)
deriving DecidableEq, Repr

/-- Final checks of the title branch (part_016 lines 286–320). -/
def finishTitle (tr : TitleResult) : RouteResp :=
  match tr with
  | .proposals ps =>
    if ps.isEmpty then .err 500 "タイトル案の生成に失敗しました" else .okProposals ps
  | .single s =>
    if !jsTruthy (jsTrim s) then .err 500 "タイトルの生成に失敗しました"
    else .okStr (jsTrim s)

/-- Final checks of the non-title branches (part_016 lines 322–338). -/
def finishNonTitle (result : String) : RouteResp :=
  if !jsTruthy (jsTrim result) then .err 500 "生成結果が空です"
  else .okStr (jsTrim result)

/-- The assist route `POST` (part_016), for a well-formed request (the
malformed-body and missing-field 400 guards are unreachable with typed
arguments).  `ai` is the `generateWithAI` outcome for the built prompt,
`jsonParse` the `JSON.parse` oracle of the title branch. -/
def assistPOST (env : Env) (ty : AssistType) (pr : PressReleaseDoc)
    (sectionContent : String) (ai : Except String String)
    (jsonParse : String → Option ParsedTitle) : RouteResp :=
  if hasAssistAI env then
    match ai with
    | .ok content0 =>
      let responseContent := jsTrim content0
      if ty = .title then
        match titlePipeline jsonParse responseContent with
        | .ok tr => finishTitle tr
        | .error m => .err 500 (userErrMsg (wrapTitleErr m))
      else finishNonTitle responseContent
    | .error m =>
      if ty = .title then .err 500 (userErrMsg (wrapTitleErr m))
      else finishNonTitle (generateTemplateBased ty pr sectionContent)
  else
    if ty = .title then .err 400 titleNoKeyMsg
    else finishNonTitle (generateTemplateBased ty pr sectionContent)

/-! ## Specification-side formulations and concrete fixtures -/

/-- Specification-level formulation of the fallback extraction: the nonblank
lines mapped through `lineCandidate` (bullet lines with a 5-to-200 capture,
plus plain 5-to-200 lines without `【`/`：`), in original order. -/
def titleFallbackSpec (content : String) : List TitleProposal :=
  (nonblankLines content).filterMap lineCandidate

/-- The fallback extraction exactly as the claim words it: only lines whose
trimmed text begins with a digit, dash or bullet and whose captured title
text has plausible length (the code's strict 5-to-200 bounds), capped at 5,
in original order. -/
def claimTitleFallback (content : String) : List TitleProposal :=
  ((nonblankLines content).filterMap (fun line =>
    let t := jsTrim line
    match bulletCapture t with
    | some cap =>
      if decide (5 < cap.length) && decide (cap.length < 200) then
        some { title := jsTrim cap, approach := "抽出されたタイトル" }
      else none
    | none => none)).take 5

/-- Environment with no credential configured. -/
def envNone : Env := { openai := "", anthropic := "", gemini := "" }

/-- Environment with only the OpenAI credential configured. -/
def envOpenAIOnly : Env := { openai := "k", anthropic := "", gemini := "" }

/-- Environment with only the Gemini credential configured. -/
def envGeminiOnly : Env := { openai := "", anthropic := "", gemini := "g" }

/-- Provider oracle whose every call fails. -/
def aiFailAll : ProposalAngle → Except String String := fun _ => Except.error "boom"

/-- Provider oracle whose every call succeeds. -/
def aiOkAll : ProposalAngle → Except String String := fun _ => Except.ok "x"

/-- `JSON.parse` oracle that always throws (proposal shape). -/
def parseNoneAI : String → Option AIContent := fun _ => none

/-- `JSON.parse` oracle that always throws (title shape). -/
def parseNoneTitle : String → Option ParsedTitle := fun _ => none

/-- A minimal orchestrator input: name and description only. -/
def inputPlain : AIAnalysisInput :=
  { productServiceName := "p", description := "d", industry := "", features := []
    targetCustomers := "" }

/-- An input whose industry keyword overlaps the trend list `["ai"]`,
giving every angle a base score of 30. -/
def inputMatching : AIAnalysisInput :=
  { productServiceName := "p", description := "d", industry := "ai", features := []
    targetCustomers := "" }

/-- An empty press-release document. -/
def prEmpty : PressReleaseDoc :=
  { companyName := "", title := "", subtitle := "", slogan := "", introduction := ""
    releaseDate := none, sections := [] }

/-- A proposal fixture with a given compatibility score. -/
def mkScoredProposal (s : Option Int) : Proposal :=
  { angle := .socialIssue, title := "t", introduction := "", background := ""
    development := "", recommendation := "", expectedMediaReaction := ""
    preview := { title := "t", introduction := "", sections := [] }
    compatibilityScore := s, isCompatible := false, scalePowers := [] }

/-- Gemini oracle: the first model fails with an invalid-key message (no 404),
every later model succeeds. -/
def cexGeminiCall : String → GeminiModelOutcome := fun model =>
  if model = "gemini-2.5-flash-preview-05-20" then
    .failure "Gemini APIキーが無効です。APIキーを確認してください。"
  else .success "OK"

/-- Gemini oracle failing on every model with a non-404 message. -/
def geminiStepCall : String → GeminiModelOutcome := fun _ => .failure "bad"

/-- Unparsable title response consisting of 3 numbered lines of plausible
length. -/
def c4InstanceContent : String := "1. ABCDEFGH\n2. BCDEFGHI\n3. CDEFGHIJ"

/-- Unparsable title response: a plain line of plausible length followed by
one numbered line. -/
def c4CexContent : String := "abcdefgh\n1. ABCDEFGH"

/-- A two-proposal list whose scores (5 and 7) are both below 10. -/
def c8LowScored : List Proposal :=
  [mkScoredProposal (some 5), mkScoredProposal (some 7)]

/-! ## Theorems -/

theorem industryComponent_score_cases (input : AIAnalysisInput) (trends : List String) :
    (industryComponent input trends).1 = 0 ∨ (industryComponent input trends).1 = 30 := by
  unfold industryComponent
  split
  · dsimp only
    split
    · exact Or.inl rfl
    · exact Or.inr rfl
  · exact Or.inl rfl

theorem descriptionComponent_score_cases (input : AIAnalysisInput) (trends : List String) :
    (descriptionComponent input trends).1 = 0 ∨ (descriptionComponent input trends).1 = 30 := by
  unfold descriptionComponent
  split
  · dsimp only
    split
    · exact Or.inl rfl
    · exact Or.inr rfl
  · exact Or.inl rfl

theorem featureComponent_score_cases (input : AIAnalysisInput) (trends : List String) :
    (featureComponent input trends).1 = 0 ∨ (featureComponent input trends).1 = 20 := by
  unfold featureComponent
  split
  · dsimp only
    split
    · exact Or.inl rfl
    · exact Or.inr rfl
  · exact Or.inl rfl

theorem checkAngleCompatibility_score_cases (input : AIAnalysisInput) (angle : ProposalAngle) :
    (checkAngleCompatibility input angle).1 = 0 ∨
    (checkAngleCompatibility input angle).1 = 10 ∨
    (checkAngleCompatibility input angle).1 = 20 := by
  unfold checkAngleCompatibility
  cases angle <;> simp <;> split <;> simp

/-- C1.  For every input, trend list and angle, `checkCompatibility` returns a
score within [0, 100] (the four additive components sum to at most 100 and
are never negative, and the result is the `Math.min` clamp of that sum), and
the returned `isCompatible` flag is true exactly when the returned score is
at least 30. -/
theorem checkCompatibility_clamped_threshold (input : AIAnalysisInput)
    (trends : List String) (angle : ProposalAngle) :
    0 ≤ (checkCompatibility input trends angle).score ∧
    (checkCompatibility input trends angle).score ≤ 100 ∧
    (checkCompatibility input trends angle).isCompatible =
      decide (30 ≤ (checkCompatibility input trends angle).score) := by
  have hi := industryComponent_score_cases input trends
  have hd := descriptionComponent_score_cases input trends
  have hf := featureComponent_score_cases input trends
  have ha := checkAngleCompatibility_score_cases input angle
  have hs0 : (0 : Int) ≤ (industryComponent input trends).1 +
      (descriptionComponent input trends).1 + (featureComponent input trends).1 +
      (checkAngleCompatibility input angle).1 := by
    rcases hi with h | h <;> rcases hd with h' | h' <;>
      rcases hf with h'' | h'' <;> rcases ha with h3 | h3 | h3 <;> omega
  have hs100 : (industryComponent input trends).1 + (descriptionComponent input trends).1 +
      (featureComponent input trends).1 + (checkAngleCompatibility input angle).1 ≤ 100 := by
    rcases hi with h | h <;> rcases hd with h' | h' <;>
      rcases hf with h'' | h'' <;> rcases ha with h3 | h3 | h3 <;> omega
  refine ⟨?_, ?_, ?_⟩
  · show (0 : Int) ≤ min ((industryComponent input trends).1 +
      (descriptionComponent input trends).1 + (featureComponent input trends).1 +
      (checkAngleCompatibility input angle).1) 100
    exact le_min hs0 (by norm_num)
  · show min ((industryComponent input trends).1 + (descriptionComponent input trends).1 +
      (featureComponent input trends).1 + (checkAngleCompatibility input angle).1) 100 ≤ 100
    exact min_le_right _ _
  · show decide (30 ≤ (industryComponent input trends).1 +
      (descriptionComponent input trends).1 + (featureComponent input trends).1 +
      (checkAngleCompatibility input angle).1) =
      decide (30 ≤ min ((industryComponent input trends).1 +
      (descriptionComponent input trends).1 + (featureComponent input trends).1 +
      (checkAngleCompatibility input angle).1) 100)
    rw [min_eq_left hs100]

/-- C9.  The angle-specific bonus (`checkAngleCompatibility`) grants exactly
+20 for the trend-aligned angle on every input, regardless of description,
features or industry (the function does not even inspect the trend list). -/
theorem checkAngleCompatibility_trendAligned (input : AIAnalysisInput) :
    (checkAngleCompatibility input .trendAligned).1 = 20 := rfl

theorem generateProposalForAngle_angle (env : Env)
    (ai : ProposalAngle → Except String String) (jp : String → Option AIContent)
    (input : AIAnalysisInput) (angle : ProposalAngle) (trends : List String)
    (month : Nat) (compat : CompatibilityAssessment) :
    (generateProposalForAngle env ai jp input angle trends month compat).angle = angle := by
  unfold generateProposalForAngle
  by_cases hpa : hasProposalAI env
  · cases hai : ai angle with
    | ok c =>
      cases hjp : jp c with
      | some a => simp [hpa, hai, hjp, createProposalFromAIResponse]
      | none => simp [hpa, hai, hjp, generateProposalFromTemplate]
    | error e => simp [hpa, hai, generateProposalFromTemplate]
  · simp [hpa, generateProposalFromTemplate]

theorem generateProposalForAngle_of_fail (env : Env)
    (ai : ProposalAngle → Except String String) (jp : String → Option AIContent)
    (input : AIAnalysisInput) (angle : ProposalAngle) (trends : List String)
    (month : Nat) (compat : CompatibilityAssessment)
    (h : ∀ c, ai angle ≠ Except.ok c) :
    generateProposalForAngle env ai jp input angle trends month compat =
      generateProposalFromTemplate input angle trends month compat := by
  unfold generateProposalForAngle
  by_cases hpa : hasProposalAI env
  · cases hai : ai angle with
    | ok c => exact absurd hai (h c)
    | error e => simp [hpa, hai]
  · simp [hpa]

theorem generateProposalsLoop_map_angle (env : Env)
    (ai : ProposalAngle → Except String String) (jp : String → Option AIContent)
    (input : AIAnalysisInput) (trends : List String) (month : Nat) :
    ∀ l : List ProposalAngle,
      (generateProposalsLoop env ai jp input trends month l).map (·.angle) =
        l.filter (fun a => !skipsAngle env input trends a) := by
  intro l
  induction l with
  | nil => rfl
  | cons a rest ih =>
    by_cases hs : skipsAngle env input trends a <;>
      simp [generateProposalsLoop, hs, ih, generateProposalForAngle_angle]

/-- C5.  The orchestrator produces a proposal for exactly the angles that are
not skipped: an angle is dropped precisely when its compatibility score is
below 10, at least one of the three provider credentials is configured and
the angle is not trend-aligned; every other angle yields a proposal. -/
theorem generateProposals_skip_rule (env : Env)
    (ai : ProposalAngle → Except String String) (jp : String → Option AIContent)
    (input : AIAnalysisInput) (trends : List String) (month : Nat) :
    (generateProposals env ai jp input trends month).map (·.angle) =
      anglesList.filter (fun a =>
        !(decide ((checkCompatibility input trends a).score < 10) &&
          hasAnyAI env && decide (a ≠ ProposalAngle.trendAligned))) := by
  exact generateProposalsLoop_map_angle env ai jp input trends month anglesList

theorem generateProposalsLoop_all_fail (env : Env)
    (ai : ProposalAngle → Except String String) (jp : String → Option AIContent)
    (input : AIAnalysisInput) (trends : List String) (month : Nat)
    (hfail : ∀ a c, ai a ≠ Except.ok c) :
    ∀ l : List ProposalAngle,
      generateProposalsLoop env ai jp input trends month l =
        (l.filter (fun a => !skipsAngle env input trends a)).map
          (fun a => generateProposalFromTemplate input a trends month
            (checkCompatibility input trends a)) := by
  intro l
  induction l with
  | nil => rfl
  | cons a rest ih =>
    by_cases hs : skipsAngle env input trends a
    · simp [generateProposalsLoop, hs, ih]
    · simp only [generateProposalsLoop, hs, Bool.false_eq_true, if_false,
        List.filter_cons, Bool.not_false, List.map_cons]
      rw [generateProposalForAngle_of_fail env ai jp input a trends month _ (hfail a), ih]
      simp

/-- C2 (amended).  When every provider call fails, the orchestrator returns,
for each angle that the low-score rule does not skip, the template-fallback
proposal for that angle (in the fixed angle order); in particular, when no
angle is skipped it returns exactly 5 proposals, one per fixed angle, each
produced by the template fallback generator. -/
theorem generateProposals_all_fail_template (env : Env)
    (ai : ProposalAngle → Except String String) (jp : String → Option AIContent)
    (input : AIAnalysisInput) (trends : List String) (month : Nat)
    (hfail : ∀ a c, ai a ≠ Except.ok c) :
    generateProposals env ai jp input trends month =
      (anglesList.filter (fun a => !skipsAngle env input trends a)).map
        (fun a => generateProposalFromTemplate input a trends month
          (checkCompatibility input trends a)) ∧
    ((∀ a ∈ anglesList, skipsAngle env input trends a = false) →
      (generateProposals env ai jp input trends month).length = 5) := by
  have h : generateProposals env ai jp input trends month =
      (anglesList.filter (fun a => !skipsAngle env input trends a)).map
        (fun a => generateProposalFromTemplate input a trends month
          (checkCompatibility input trends a)) :=
    generateProposalsLoop_all_fail env ai jp input trends month hfail anglesList
  refine ⟨h, fun hnoskip => ?_⟩
  have hfil : anglesList.filter (fun a => !skipsAngle env input trends a) = anglesList := by
    apply List.filter_eq_self.mpr
    intro a ha
    simp [hnoskip a ha]
  rw [h, hfil]
  rfl

/-- C2 witness: with only OpenAI configured and a failing provider oracle,
the orchestrator output is the template map over the non-skipped angles, and
with an input whose industry keyword overlaps the trend list no angle is
skipped, giving exactly 5 proposals. -/
theorem generateProposals_all_fail_template_witness :
    generateProposals envOpenAIOnly aiFailAll parseNoneAI inputMatching ["ai"] 4 =
      (anglesList.filter (fun a => !skipsAngle envOpenAIOnly inputMatching ["ai"] a)).map
        (fun a => generateProposalFromTemplate inputMatching a ["ai"] 4
          (checkCompatibility inputMatching ["ai"] a)) ∧
    (generateProposals envOpenAIOnly aiFailAll parseNoneAI inputMatching ["ai"] 4).length = 5 :=
  have h := generateProposals_all_fail_template envOpenAIOnly aiFailAll parseNoneAI
    inputMatching ["ai"] 4 (fun _ c hc => Except.noConfusion hc)
  ⟨h.1, h.2 (by decide)⟩

/-- C2 counterexample: providers are configured (OpenAI key set), every
provider call fails, yet for a minimal input with an empty trend list the
orchestrator returns only 2 proposals (three angles score below 10 and are
skipped), not 5. -/
theorem generateProposals_all_fail_cex :
    (generateProposals envOpenAIOnly aiFailAll parseNoneAI inputPlain [] 4).length = 2 := by
  decide

theorem generateProposalForAngle_no_ai (env : Env)
    (ai : ProposalAngle → Except String String) (jp : String → Option AIContent)
    (input : AIAnalysisInput) (angle : ProposalAngle) (trends : List String)
    (month : Nat) (compat : CompatibilityAssessment)
    (hpa : hasProposalAI env = false) :
    generateProposalForAngle env ai jp input angle trends month compat =
      generateProposalFromTemplate input angle trends month compat := by
  unfold generateProposalForAngle
  simp [hpa]

theorem generateProposalsLoop_no_proposal_ai (env : Env)
    (ai : ProposalAngle → Except String String) (jp : String → Option AIContent)
    (input : AIAnalysisInput) (trends : List String) (month : Nat)
    (hpa : hasProposalAI env = false) :
    ∀ l : List ProposalAngle,
      generateProposalsLoop env ai jp input trends month l =
        (l.filter (fun a => !skipsAngle env input trends a)).map
          (fun a => generateProposalFromTemplate input a trends month
            (checkCompatibility input trends a)) := by
  intro l
  induction l with
  | nil => rfl
  | cons a rest ih =>
    by_cases hs : skipsAngle env input trends a <;>
      simp [generateProposalsLoop, hs, ih,
        generateProposalForAngle_no_ai env ai jp input a trends month _ hpa]

/-- C10.  With only the Gemini credential configured, the per-angle check
(`hasProposalAI`, OpenAI/Anthropic only) sees no provider while the skip rule
(`hasAnyAI`) counts Gemini: every produced proposal is the template-fallback
one — independent of the provider oracle — yet the angles whose score is
below 10 (other than trend-aligned) are still skipped. -/
theorem generateProposals_gemini_only (env : Env)
    (ai : ProposalAngle → Except String String) (jp : String → Option AIContent)
    (input : AIAnalysisInput) (trends : List String) (month : Nat)
    (ho : env.openai = "") (ha : env.anthropic = "") (hg : env.gemini ≠ "") :
    generateProposals env ai jp input trends month =
      (anglesList.filter (fun a =>
        !(decide ((checkCompatibility input trends a).score < 10) &&
          decide (a ≠ ProposalAngle.trendAligned)))).map
        (fun a => generateProposalFromTemplate input a trends month
          (checkCompatibility input trends a)) := by
  have hpa : hasProposalAI env = false := by
    simp [hasProposalAI, jsTruthy, ho, ha]
  have h3 : hasAnyAI env = true := by
    simp [hasAnyAI, jsTruthy, hg]
  rw [generateProposals, generateProposalsLoop_no_proposal_ai env ai jp input trends month hpa]
  congr 1
  apply List.filter_congr
  intro a _
  simp [skipsAngle, h3]

/-- C10 witness: only the Gemini key set, a succeeding provider oracle, an
input where three angles score below 10: the result is the filtered template
map (trend-aligned and seasonal only). -/
theorem generateProposals_gemini_only_witness :
    generateProposals envGeminiOnly aiOkAll parseNoneAI inputPlain [] 4 =
      (anglesList.filter (fun a =>
        !(decide ((checkCompatibility inputPlain [] a).score < 10) &&
          decide (a ≠ ProposalAngle.trendAligned)))).map
        (fun a => generateProposalFromTemplate inputPlain a [] 4
          (checkCompatibility inputPlain [] a)) :=
  generateProposals_gemini_only envGeminiOnly aiOkAll parseNoneAI inputPlain [] 4
    rfl rfl (by decide)

theorem pickBestProposal_mem : ∀ (l : List Proposal) (b : Proposal),
    pickBestProposal b l = b ∨ pickBestProposal b l ∈ l := by
  intro l
  induction l with
  | nil => intro b; exact Or.inl rfl
  | cons c rest ih =>
    intro b
    simp only [pickBestProposal]
    rcases ih (if proposalScoreD c > proposalScoreD b then c else b) with h | h
    · by_cases hc : proposalScoreD c > proposalScoreD b
      · right; rw [h]; simp [hc]
      · left; rw [h]; simp [hc]
    · right; exact List.mem_cons_of_mem c h

theorem pickBestProposal_le : ∀ (l : List Proposal) (b : Proposal),
    proposalScoreD b ≤ proposalScoreD (pickBestProposal b l) ∧
    ∀ p ∈ l, proposalScoreD p ≤ proposalScoreD (pickBestProposal b l) := by
  intro l
  induction l with
  | nil => intro b; exact ⟨le_refl _, by simp⟩
  | cons c rest ih =>
    intro b
    simp only [pickBestProposal]
    obtain ⟨h1, h2⟩ := ih (if proposalScoreD c > proposalScoreD b then c else b)
    constructor
    · refine le_trans ?_ h1
      by_cases hc : proposalScoreD c > proposalScoreD b
      · simp only [if_pos hc]; exact le_of_lt hc
      · simp [hc]
    · intro p hp
      rcases List.mem_cons.mp hp with rfl | hp'
      · refine le_trans ?_ h1
        by_cases hc : proposalScoreD p > proposalScoreD b
        · simp [hc]
        · simp only [if_neg hc]; exact le_of_not_lt hc
      · exact h2 p hp'

/-- C8.  The POST-level filter drops every proposal whose defined score is
below 10 (undefined scores are kept); if that filtering empties a non-empty
list, the route instead returns exactly one proposal, a member of the
generated list whose `|| 0`-defaulted score is maximal; and a non-empty
generated list never yields an empty response. -/
theorem selectFinalProposals_spec (ps : List Proposal) :
    ((ps.filter keepProposal ≠ [] ∨ ps = []) →
      selectFinalProposals ps = ps.filter keepProposal) ∧
    (ps ≠ [] → ps.filter keepProposal = [] →
      ∃ b, b ∈ ps ∧ selectFinalProposals ps = [b] ∧
        ∀ p ∈ ps, proposalScoreD p ≤ proposalScoreD b) ∧
    (ps ≠ [] → selectFinalProposals ps ≠ []) := by
  cases ps with
  | nil => exact ⟨fun _ => rfl, fun h => absurd rfl h, fun h => absurd rfl h⟩
  | cons p rest =>
    cases hf : (p :: rest).filter keepProposal with
    | nil =>
      have hsel : selectFinalProposals (p :: rest) = [pickBestProposal p rest] := by
        unfold selectFinalProposals
        dsimp only
        rw [hf]
      refine ⟨?_, ?_, ?_⟩
      · rintro (h | h)
        · exact absurd rfl h
        · exact absurd h (by simp)
      · intro _ _
        refine ⟨pickBestProposal p rest, ?_, hsel, ?_⟩
        · rcases pickBestProposal_mem rest p with h | h
          · rw [h]; simp
          · simp [h]
        · intro q hq
          obtain ⟨h1, h2⟩ := pickBestProposal_le rest p
          rcases List.mem_cons.mp hq with rfl | hq'
          · exact h1
          · exact h2 q hq'
      · intro _
        rw [hsel]
        simp
    | cons f fs =>
      have hsel : selectFinalProposals (p :: rest) = f :: fs := by
        unfold selectFinalProposals
        dsimp only
        rw [hf]
      refine ⟨fun _ => hsel, ?_, ?_⟩
      · intro _ h
        exact absurd h (by simp)
      · intro _
        rw [hsel]
        simp

/-- C8 witness: two proposals with scores 5 and 7 — the filter empties the
list, yet the route still returns a non-empty answer. -/
theorem selectFinalProposals_spec_witness : selectFinalProposals c8LowScored ≠ [] :=
  (selectFinalProposals_spec c8LowScored).2.2 (by simp [c8LowScored])

/-- C3 (amended).  In the Gemini model loop, a `ModelUnavailable` (HTTP-404)
outcome advances to the next model; any other failure also advances while
further models remain, and is surfaced immediately only when it occurs on the
last model of the list. -/
theorem geminiTryModels_step (call : String → GeminiModelOutcome)
    (model : String) (rest : List String) (lastError : Option String)
    (c e : String) :
    (call model = .success c →
      geminiTryModels call (model :: rest) lastError = .ok c) ∧
    (call model = .notFound e →
      geminiTryModels call (model :: rest) lastError =
        geminiTryModels call rest (some e)) ∧
    (call model = .failure e → rest ≠ [] →
      geminiTryModels call (model :: rest) lastError =
        geminiTryModels call rest (some e)) ∧
    (call model = .failure e → rest = [] → jsIncludes e "404" = false →
      geminiTryModels call (model :: rest) lastError = .error e) := by
  refine ⟨?_, ?_, ?_, ?_⟩
  · intro h; simp [geminiTryModels, h]
  · intro h; simp [geminiTryModels, h]
  · intro h hrest
    cases rest with
    | nil => exact absurd rfl hrest
    | cons r rs =>
      by_cases h404 : jsIncludes e "404" <;> simp [geminiTryModels, h, h404]
  · intro h hrest h404
    subst hrest
    simp [geminiTryModels, h, h404]

/-- C3 witness: a non-404 failure on the first of two models advances to the
second model instead of aborting. -/
theorem geminiTryModels_step_witness :
    geminiTryModels geminiStepCall ["m1", "m2"] none =
      geminiTryModels geminiStepCall ["m2"] (some "bad") :=
  (geminiTryModels_step geminiStepCall "m1" ["m2"] none "c" "bad").2.2.1 rfl
    (List.cons_ne_nil _ _)

/-- C3 counterexample: the first model fails with an invalid-key message (not
a 404), yet the adapter does not abort with that failure — it tries the next
model and returns its success. -/
theorem generateWithGemini_non404_continues_cex :
    generateWithGemini envGeminiOnly cexGeminiCall = Except.ok "OK" ∧
    generateWithGemini envGeminiOnly cexGeminiCall ≠
      Except.error "Gemini APIキーが無効です。APIキーを確認してください。" := by
  have h : generateWithGemini envGeminiOnly cexGeminiCall = Except.ok "OK" := rfl
  exact ⟨h, by rw [h]; exact fun hc => Except.noConfusion hc⟩

/-- C6.  In `auto` mode the router equals the specification-side router: it
tries the configured providers in the fixed order OpenAI, Claude, Gemini,
returns the first success, surfaces the last failure once every configured
provider is exhausted, and fails with `noProviderMsg` when none is
configured. -/
theorem generateWithAI_auto_eq_routerSpec (env : Env) (oc cc gc : Except String String) :
    generateWithAI env .auto oc cc gc = routerSpec env oc cc gc := by
  unfold generateWithAI routerSpec generateWithOpenAI generateWithClaude
  by_cases ho : jsTruthy env.openai <;> by_cases ha : jsTruthy env.anthropic <;>
    by_cases hg : jsTruthy env.gemini <;>
    cases oc <;> cases cc <;> cases gc <;>
    simp [ho, ha, hg, routerTryEach]

/-- C4 (amended).  When every JSON parse attempt fails, the title branch's
line fallback keeps, in original order, the lines whose trimmed text begins
with a digit, dash or bullet with a captured title of length strictly between
5 and 200, and also the plain lines of length strictly between 5 and 200 that
do not start with `【` nor contain `：`; the result is capped at 5; and the
unparsable 3-numbered-line input yields exactly 3 proposals in original
order. -/
theorem titlePipeline_fallback_spec :
    (∀ lines : List String, extractTitlesLoop lines = lines.filterMap lineCandidate) ∧
    (∀ (jp : String → Option ParsedTitle) (content : String),
      (∀ s, jp s = none) → titleFallbackSpec content ≠ [] →
      titlePipeline jp content =
        .ok (.proposals ((titleFallbackSpec content).take 5))) ∧
    titlePipeline parseNoneTitle c4InstanceContent =
      .ok (.proposals
        [{ title := ". ABCDEFGH", approach := "抽出されたタイトル" },
         { title := ". BCDEFGHI", approach := "抽出されたタイトル" },
         { title := ". CDEFGHIJ", approach := "抽出されたタイトル" }]) := by
  have hloop : ∀ lines : List String,
      extractTitlesLoop lines = lines.filterMap lineCandidate := by
    intro lines
    induction lines with
    | nil => rfl
    | cons line rest ih =>
      cases h : lineCandidate line <;>
        simp [extractTitlesLoop, h, ih, List.filterMap_cons]
  refine ⟨hloop, ?_, rfl⟩
  intro jp content hjp hne
  unfold titleFallbackSpec at hne
  unfold titlePipeline
  rw [hjp]
  dsimp only
  rw [hloop]
  cases hl : (nonblankLines content).filterMap lineCandidate with
  | nil => exact absurd hl hne
  | cons a t => simp [titleFallbackSpec, hl]

/-- C4 witness: the fallback characterization applied at the concrete
3-numbered-line input with an always-failing parse oracle. -/
theorem titlePipeline_fallback_spec_witness :
    titlePipeline parseNoneTitle c4InstanceContent =
      .ok (.proposals ((titleFallbackSpec c4InstanceContent).take 5)) :=
  titlePipeline_fallback_spec.2.1 parseNoneTitle c4InstanceContent (fun _ => rfl)
    (by decide)

/-- C4 counterexample: on an unparsable response whose first line is plain
text (no leading digit, dash or bullet), the code's fallback returns 2
proposals — the plain line included — while the claim's bullet-only
description yields only 1. -/
theorem titlePipeline_fallback_cex :
    titlePipeline parseNoneTitle c4CexContent =
      .ok (.proposals
        [{ title := "abcdefgh", approach := "抽出されたタイトル" },
         { title := ". ABCDEFGH", approach := "抽出されたタイトル" }]) ∧
    claimTitleFallback c4CexContent =
      [{ title := ". ABCDEFGH", approach := "抽出されたタイトル" }] :=
  ⟨rfl, by decide⟩

theorem append_ne_of_not_prefix (p t s : String)
    (h : p.data.isPrefixOf s.data = false) : p ++ t ≠ s := by
  intro he
  have h3 : p.data.isPrefixOf s.data = true := by
    rw [← he, String.data_append, List.isPrefixOf_iff_prefix]
    exact List.prefix_append _ _
  rw [h] at h3
  exact Bool.false_ne_true h3

theorem userErrMsg_wrapTitleErr_ne_noKey (m : String) :
    userErrMsg (wrapTitleErr m) ≠ titleNoKeyMsg := by
  unfold wrapTitleErr userErrMsg toAppError
  split_ifs <;>
    simp only [getUserFriendlyMessage] <;>
    (try split_ifs) <;>
    first
      | decide
      | (apply append_ne_of_not_prefix; decide)

/-- C7 (amended).  For the title task, failure is fatal: with no credential
configured the route answers 400 with the fixed missing-API-key message, and
with a failing provider call it answers 500 with the error-mapped failure
message, which differs from the missing-key message for every provider error.
For the other task kinds in those same situations, the route answers with the
template-based result whenever that result is non-blank after trimming; a
whitespace-only template result (possible only when the existing introduction
or the provided section content is whitespace-only) is rejected with the
empty-result error instead. -/
theorem assistPOST_title_fatal (env : Env) (ty : AssistType) (pr : PressReleaseDoc)
    (sectionContent : String) (ai : Except String String)
    (jp : String → Option ParsedTitle) (m : String) :
    (hasAssistAI env = false →
      assistPOST env .title pr sectionContent ai jp =
        .err 400 titleNoKeyMsg) ∧
    (hasAssistAI env = true → ai = Except.error m →
      assistPOST env .title pr sectionContent ai jp =
        .err 500 (userErrMsg (wrapTitleErr m)) ∧
      userErrMsg (wrapTitleErr m) ≠ titleNoKeyMsg) ∧
    (ty ≠ .title → (hasAssistAI env = false ∨ ai = Except.error m) →
      assistPOST env ty pr sectionContent ai jp =
        (if jsTruthy (jsTrim (generateTemplateBased ty pr sectionContent)) then
          .okStr (jsTrim (generateTemplateBased ty pr sectionContent))
        else .err 500 "生成結果が空です")) := by
  have hfin : ∀ r : String, finishNonTitle r =
      (if jsTruthy (jsTrim r) then RouteResp.okStr (jsTrim r)
       else RouteResp.err 500 "生成結果が空です") := by
    intro r
    unfold finishNonTitle
    by_cases hx : jsTruthy (jsTrim r) <;> simp [hx]
  refine ⟨?_, ?_, ?_⟩
  · intro h
    unfold assistPOST
    simp [h]
  · intro h he
    subst he
    refine ⟨?_, userErrMsg_wrapTitleErr_ne_noKey m⟩
    unfold assistPOST
    simp [h]
  · intro hty hcase
    have hred : assistPOST env ty pr sectionContent ai jp =
        finishNonTitle (generateTemplateBased ty pr sectionContent) := by
      rcases hcase with h | h
      · unfold assistPOST
        simp [h, hty]
      · by_cases hA : hasAssistAI env
        · unfold assistPOST
          simp [hA, h, hty]
        · unfold assistPOST
          simp [hA, hty]
    rw [hred, hfin]

/-- C7 witness: title task with no credential configured answers 400 with the
missing-API-key message. -/
theorem assistPOST_title_fatal_witness :
    assistPOST envNone .title prEmpty "" (Except.ok "x") parseNoneTitle =
      .err 400 titleNoKeyMsg :=
  (assistPOST_title_fatal envNone .title prEmpty "" (Except.ok "x")
    parseNoneTitle "m").1 rfl

/-- C7 counterexample: a section task with whitespace-only existing content
and no credential configured does not return a usable template result — the
route answers 500 with the empty-result error. -/
theorem assistPOST_section_whitespace_cex :
    assistPOST envNone .section prEmpty " " (Except.ok "x") parseNoneTitle =
      .err 500 "生成結果が空です" := rfl
